import Mathlib

/-!
Verification of the FGN Savings Bond subscription application (ajakaiye33/fgn-bonds).

This file shallowly embeds the parts of the repository that the checked
properties are about, and proves or refutes each property against the
embedding:

* the currency-to-words formatter and phone normalizer
  (frontend/src/lib/utils.ts: numberToWords, formatMoneyInWords,
  normalizePhoneNumber);
* the Zod validation schemas (frontend/src/lib/validation.ts:
  applicationFormSchema, classificationSchema, corporateFieldsSchema, ...);
* the form wizard state machine (frontend/src/hooks/useFormWizard.ts) and the
  per-step validation dispatcher (FormWizard.tsx: validateStep);
* the step components that decide which fields/sections are emitted
  (ApplicantInfoStep, DistributionStep, ReviewStep, RadioGroup).

Conventions of the embedding:
* JS strings are modeled as Lean String, or as List Char where the code
  manipulates them character-wise;
* JS numbers are modeled as exact rationals (ℚ); Math.floor is Int.floor and
  Math.round is Mathlib round (both round .5 towards +infinity, like JS);
* optional / possibly-undefined values are Option;
* React components are modeled by the list of form fields (or section titles)
  they emit, which is the observable the properties speak about.

The backend PDF generation package (backend/pdf: elements.py, generator.py)
is not part of the available sources; the primitives the properties about it
need (FixedWidthField, generate) are modeled from the design document and
marked as such in their doc comments.
-/

namespace FgnBonds

/-! ## Currency in words (frontend/src/lib/utils.ts) -/

/-- Word table ['', 'One', ..., 'Nine'] of numberToWords. -/
def units : List String :=
  ["", "One", "Two", "Three", "Four", "Five", "Six", "Seven", "Eight", "Nine"]

/-- Word table ['Ten', ..., 'Nineteen'] of numberToWords. -/
def teens : List String :=
  ["Ten", "Eleven", "Twelve", "Thirteen", "Fourteen", "Fifteen", "Sixteen",
   "Seventeen", "Eighteen", "Nineteen"]

/-- Word table ['', '', 'Twenty', ..., 'Ninety'] of numberToWords. -/
def tens : List String :=
  ["", "", "Twenty", "Thirty", "Forty", "Fifty", "Sixty", "Seventy", "Eighty",
   "Ninety"]

/-- Scale-word table ['', 'Thousand', 'Million', 'Billion'] of numberToWords. -/
def scaleWords : List String := ["", "Thousand", "Million", "Billion"]

/-- Decimal digits of n, least significant first. Models Number.toString(10)
read back as digits. The fuel argument bounds the digit count; digitsOf below
supplies fuel 20, enough for every value the program can produce (bond values
are at most 5*10^7 and kobo at most 100). -/
def digitsRevAux : Nat → Nat → List Nat
  | 0, _ => []
  | _ + 1, 0 => []
  | fuel + 1, n => n % 10 :: digitsRevAux fuel (n / 10)

/-- Decimal digit string of n, most significant first (n.toString()). -/
def digitsOf (n : Nat) : List Nat := (digitsRevAux 20 n).reverse

/-- Splits a list into chunks of three from the left; applied to the reversed
digit string this reproduces the `groups.push(n.slice(-3)); n = n.slice(0,-3)`
loop of getGroups, which takes three characters at a time from the right. -/
def chunk3 : List Nat → List (List Nat)
  | [] => []
  | [a] => [[a]]
  | [a, b] => [[a, b]]
  | a :: b :: c :: rest => [a, b, c] :: chunk3 rest

/-- getGroups of numberToWords: digit groups of three, taken from the right,
returned most significant group first (the source pushes right-to-left and
then reverses; here we chunk the reversed string and undo both reversals). -/
def getGroups (n : List Nat) : List (List Nat) :=
  ((chunk3 n.reverse).map List.reverse).reverse

/-- The two-character branch of getNumber: teens for a leading 1, otherwise
tens word and unit word joined with a space after filtering empty parts
(`[tenPart, unitPart].filter(Boolean).join(' ')`). -/
def twoDigitWords (a b : Nat) : String :=
  if a = 1 then teens.getD b ""
  else String.intercalate " "
    (([tens.getD a "", if b ≠ 0 then units.getD b "" else ""]).filter (· ≠ ""))

/-- getNumber of numberToWords on a digit group of length at most three. The
three-character branch with a leading zero recurses on the last two characters
(`getNumber(n.slice(1))`), which is exactly the two-character branch; groups
longer than three return ''. -/
def getNumber : List Nat → String
  | [] => ""
  | [d] => units.getD d ""
  | [a, b] => twoDigitWords a b
  | [a, b, c] =>
      if a = 0 then twoDigitWords b c
      else
        units.getD a "" ++ " Hundred"
          ++ (if twoDigitWords b c ≠ "" then " and " ++ twoDigitWords b c else "")
  | _ => ""

/-- parseInt of a digit group, used for the `parseInt(group) !== 0` test. -/
def groupVal (g : List Nat) : Nat := g.foldl (fun acc d => acc * 10 + d) 0

/-- numberToWords (frontend/src/lib/utils.ts). The source floors its float
argument before converting; this embedding takes the already-floored value as
a Nat (the program only ever passes integers: the naira and kobo parts). A
missing scale word (index beyond 'Billion') is the empty string, which like
`undefined` in the source is skipped by the truthiness test. -/
def numberToWords (num : Nat) : String :=
  if num = 0 then "Zero"
  else
    let groups := getGroups (digitsOf num)
    let words := groups.enum.filterMap fun p =>
      if groupVal p.2 ≠ 0 then
        some (let word := getNumber p.2
              let sfx := scaleWords.getD (groups.length - p.1 - 1) ""
              if sfx ≠ "" then word ++ " " ++ sfx else word)
      else none
    String.intercalate " " words

/-- formatMoneyInWords (frontend/src/lib/utils.ts):
`naira = Math.floor(amount); kobo = Math.round((amount - naira) * 100);`
result is the naira words plus ' Naira', with ' and <kobo words> Kobo'
appended iff kobo > 0. Amounts are exact rationals; Math.round rounds .5
towards +infinity exactly as Mathlib round does. -/
def formatMoneyInWords (amount : ℚ) : String :=
  if 0 < round ((amount - (⌊amount⌋ : ℚ)) * 100) then
    numberToWords (⌊amount⌋).toNat ++ " Naira and "
      ++ numberToWords (round ((amount - (⌊amount⌋ : ℚ)) * 100)).toNat ++ " Kobo"
  else numberToWords (⌊amount⌋).toNat ++ " Naira"

/-- Evaluation helper: once floor and round are computed, formatMoneyInWords
reduces to a concrete string expression. -/
theorem formatMoneyInWords_eval (amount : ℚ) (n k : ℤ)
    (hn : ⌊amount⌋ = n) (hk : round ((amount - (n : ℚ)) * 100) = k) :
    formatMoneyInWords amount =
      if 0 < k then
        numberToWords n.toNat ++ " Naira and " ++ numberToWords k.toNat ++ " Kobo"
      else numberToWords n.toNat ++ " Naira" := by
  simp only [formatMoneyInWords, hn, hk]

example : numberToWords 5000 = "Five Thousand" := by decide

example : numberToWords 50000000 = "Fifty Million" := by decide

example : numberToWords 101 = "One Hundred and One" := by decide

/-- C1, as stated, is false: the claim quantifies over every amount with a
nonzero fractional remainder f and asserts (a) Kobo is appended exactly when
f is nonzero and (b) the rendered Kobo value lies between one and ninety-nine.
At amount 5000.001 the remainder 1/1000 is nonzero yet Math.round maps it to
zero hundredths, so no Kobo is appended; at amount 5000.999 the remainder
999/1000 rounds to one hundred hundredths and the rendered value is
'One Hundred Kobo', outside 1..99. -/
theorem C1_counterexample :
    ((5000001/1000 : ℚ) - (⌊(5000001/1000 : ℚ)⌋ : ℚ) ≠ 0
        ∧ formatMoneyInWords (5000001/1000) = "Five Thousand Naira")
    ∧ ((5000999/1000 : ℚ) - (⌊(5000999/1000 : ℚ)⌋ : ℚ) ≠ 0
        ∧ formatMoneyInWords (5000999/1000)
            = "Five Thousand Naira and One Hundred Kobo") := by
  have hn1 : (⌊(5000001/1000 : ℚ)⌋ : ℤ) = 5000 := by norm_num
  have hn2 : (⌊(5000999/1000 : ℚ)⌋ : ℤ) = 5000 := by norm_num
  refine ⟨⟨by rw [hn1]; norm_num, ?_⟩, ⟨by rw [hn2]; norm_num, ?_⟩⟩
  · rw [formatMoneyInWords_eval (5000001/1000) 5000 0 hn1 (by rw [round_eq]; norm_num)]
    decide
  · rw [formatMoneyInWords_eval (5000999/1000) 5000 100 hn2 (by rw [round_eq]; norm_num)]
    decide

/-- C1 (amended): over the allowed range [5000, 50000000], formatMoneyInWords
renders the whole-naira part in words followed by ' Naira';
formatMoneyInWords 5000 = 'Five Thousand Naira' and
formatMoneyInWords 50000000 = 'Fifty Million Naira'. The Kobo suffix is
appended exactly when the fractional remainder rounds to a nonzero number of
hundredths; the rendered Kobo value is that rounded hundredths count, which
lies between zero and one hundred (one and one hundred when appended) - not
between one and ninety-nine as originally claimed, since remainders of at
least 0.995 render as 'One Hundred Kobo', and positive remainders below 0.005
append no Kobo at all. -/
theorem C1_thm :
    formatMoneyInWords 5000 = "Five Thousand Naira"
    ∧ formatMoneyInWords 50000000 = "Fifty Million Naira"
    ∧ ∀ amount : ℚ, 5000 ≤ amount → amount ≤ 50000000 →
        (0 ≤ round ((amount - (⌊amount⌋ : ℚ)) * 100)
          ∧ round ((amount - (⌊amount⌋ : ℚ)) * 100) ≤ 100)
        ∧ (0 < round ((amount - (⌊amount⌋ : ℚ)) * 100) →
            formatMoneyInWords amount =
              numberToWords (⌊amount⌋).toNat ++ " Naira and "
                ++ numberToWords (round ((amount - (⌊amount⌋ : ℚ)) * 100)).toNat
                ++ " Kobo")
        ∧ (round ((amount - (⌊amount⌋ : ℚ)) * 100) = 0 →
            formatMoneyInWords amount = numberToWords (⌊amount⌋).toNat ++ " Naira") := by
  refine ⟨?_, ?_, ?_⟩
  · rw [formatMoneyInWords_eval 5000 5000 0 (by norm_num) (by rw [round_eq]; norm_num)]
    decide
  · rw [formatMoneyInWords_eval 50000000 50000000 0 (by norm_num)
      (by rw [round_eq]; norm_num)]
    decide
  · intro amount _ _
    have hf0 : (0:ℚ) ≤ amount - (⌊amount⌋ : ℚ) := by
      have := Int.floor_le amount; linarith
    have hf1 : amount - (⌊amount⌋ : ℚ) < 1 := by
      have := Int.lt_floor_add_one amount; linarith
    refine ⟨⟨?_, ?_⟩, ?_, ?_⟩
    · rw [round_eq]
      exact Int.le_floor.mpr (by push_cast; linarith)
    · rw [round_eq]
      have h2 := Int.floor_lt.mpr
        (show (amount - (⌊amount⌋ : ℚ)) * 100 + 1/2 < ((101:ℤ):ℚ) by push_cast; linarith)
      omega
    · intro h
      simp only [formatMoneyInWords, if_pos h]
    · intro h
      simp only [formatMoneyInWords, h]
      norm_num

/-- Concrete witness for C1_thm: amount 5000.5 lies in the allowed range, its
remainder rounds to fifty hundredths, and the formatter appends
'and Fifty Kobo'. -/
theorem C1_witness :
    (5000:ℚ) ≤ 10001/2 ∧ (10001/2 : ℚ) ≤ 50000000
      ∧ formatMoneyInWords (10001/2) = "Five Thousand Naira and Fifty Kobo" := by
  refine ⟨by norm_num, by norm_num, ?_⟩
  have hn : (⌊(10001/2 : ℚ)⌋ : ℤ) = 5000 := by norm_num
  have hk : round (((10001/2 : ℚ) - (⌊(10001/2 : ℚ)⌋ : ℚ)) * 100) = 50 := by
    rw [hn, round_eq]; norm_num
  have h := (C1_thm.2.2 (10001/2) (by norm_num) (by norm_num)).2.1 (by rw [hk]; norm_num)
  rw [h, hk, hn]
  decide

/-! ## Phone normalization (frontend/src/lib/utils.ts) -/

/-- Characters kept by the cleaning regex replace of normalizePhoneNumber:
`phone.replace(/[^\d+]/g, '')` removes everything but digits and plus signs. -/
def isPhoneChar (ch : Char) : Bool := ch.isDigit || ch == '+'

/-- The cleaned phone string of normalizePhoneNumber. -/
def cleanPhone (phone : List Char) : List Char := phone.filter isPhoneChar

/-- cleaned.startsWith('0'). -/
def startsWith0 (l : List Char) : Bool :=
  match l with
  | c :: _ => c == '0'
  | _ => false

/-- cleaned.startsWith('234'). -/
def startsWith234 (l : List Char) : Bool :=
  match l with
  | a :: b :: c :: _ => a == '2' && b == '3' && c == '4'
  | _ => false

/-- normalizePhoneNumber (frontend/src/lib/utils.ts), on strings as character
lists: clean, then rewrite a leading '0' to '+234', prepend '+' to a leading
'234', and otherwise return the cleaned string unchanged. -/
def normalizePhoneNumber (phone : List Char) : List Char :=
  if startsWith0 (cleanPhone phone) then
    '+' :: '2' :: '3' :: '4' :: (cleanPhone phone).tail
  else if startsWith234 (cleanPhone phone) then '+' :: cleanPhone phone
  else cleanPhone phone

theorem cleanPhone_cleanPhone (l : List Char) : cleanPhone (cleanPhone l) = cleanPhone l :=
  List.filter_eq_self.mpr fun _ ha => (List.mem_filter.mp ha).2

/-- Every character the normalizer outputs survives another cleaning pass:
the output consists of cleaned input characters plus literal '+', '2', '3',
'4', all of which the cleaning regex keeps. -/
theorem cleanPhone_normalize (s : List Char) :
    cleanPhone (normalizePhoneNumber s) = normalizePhoneNumber s := by
  have htail : ∀ a ∈ (cleanPhone s).tail, isPhoneChar a = true := fun a ha =>
    (List.mem_filter.mp ((List.tail_sublist (cleanPhone s)).subset ha)).2
  unfold normalizePhoneNumber
  split_ifs with h1 h2
  · refine List.filter_eq_self.mpr ?_
    intro a ha
    simp only [List.mem_cons] at ha
    rcases ha with rfl | rfl | rfl | rfl | ha
    · decide
    · decide
    · decide
    · decide
    · exact htail a ha
  · refine List.filter_eq_self.mpr ?_
    intro a ha
    simp only [List.mem_cons] at ha
    rcases ha with rfl | ha
    · decide
    · exact (List.mem_filter.mp ha).2
  · exact cleanPhone_cleanPhone s

/-- A string that is already clean and starts with neither '0' nor '234' is a
fixed point of the normalizer. -/
theorem normalize_fixed (l : List Char) (hc : cleanPhone l = l)
    (h0 : startsWith0 l = false) (h234 : startsWith234 l = false) :
    normalizePhoneNumber l = l := by
  unfold normalizePhoneNumber
  rw [hc, h0, h234]
  simp

theorem startsWith234_take (l : List Char) (h : startsWith234 l = true) :
    l.take 3 = ['2', '3', '4'] := by
  cases l with
  | nil => simp [startsWith234] at h
  | cons a t =>
    cases t with
    | nil => simp [startsWith234] at h
    | cons b u =>
      cases u with
      | nil => simp [startsWith234] at h
      | cons c v =>
        simp only [startsWith234, Bool.and_eq_true, beq_iff_eq] at h
        obtain ⟨⟨rfl, rfl⟩, rfl⟩ := h
        rfl

/-- A '+'-prefixed string never starts with '234'. -/
theorem startsWith234_plus (l : List Char) : startsWith234 ('+' :: l) = false := by
  cases l with
  | nil => rfl
  | cons b t =>
    cases t with
    | nil => rfl
    | cons c u => simp [startsWith234]

/-- C10: normalizePhoneNumber is idempotent, and whenever the cleaned input
starts with '0' or with '234' the result starts with '+234'. -/
theorem C10_thm :
    (∀ s : List Char,
        normalizePhoneNumber (normalizePhoneNumber s) = normalizePhoneNumber s)
    ∧ (∀ s : List Char,
        startsWith0 (cleanPhone s) = true ∨ startsWith234 (cleanPhone s) = true →
        (normalizePhoneNumber s).take 4 = ['+', '2', '3', '4']) := by
  constructor
  · intro s
    by_cases h1 : startsWith0 (cleanPhone s) = true
    · have hout : normalizePhoneNumber s = '+' :: '2' :: '3' :: '4' :: (cleanPhone s).tail := by
        unfold normalizePhoneNumber
        rw [h1]
        simp
      rw [hout]
      refine normalize_fixed _ ?_ (by simp [startsWith0]) (by simp [startsWith234])
      have := cleanPhone_normalize s
      rwa [hout] at this
    · by_cases h2 : startsWith234 (cleanPhone s) = true
      · have hout : normalizePhoneNumber s = '+' :: cleanPhone s := by
          unfold normalizePhoneNumber
          rw [h2]
          simp [h1]
        rw [hout]
        refine normalize_fixed _ ?_ (by simp [startsWith0]) (startsWith234_plus _)
        have := cleanPhone_normalize s
        rwa [hout] at this
      · have hout : normalizePhoneNumber s = cleanPhone s := by
          unfold normalizePhoneNumber
          simp [h1, h2]
        rw [hout]
        exact normalize_fixed _ (cleanPhone_cleanPhone s)
          (Bool.not_eq_true _ ▸ h1) (Bool.not_eq_true _ ▸ h2)
  · intro s h
    rcases h with h | h
    · have hout : normalizePhoneNumber s = '+' :: '2' :: '3' :: '4' :: (cleanPhone s).tail := by
        unfold normalizePhoneNumber
        rw [h]
        simp
      rw [hout]
      rfl
    · by_cases h1 : startsWith0 (cleanPhone s) = true
      · have hout : normalizePhoneNumber s = '+' :: '2' :: '3' :: '4' :: (cleanPhone s).tail := by
          unfold normalizePhoneNumber
          rw [h1]
          simp
        rw [hout]
        rfl
      · have hout : normalizePhoneNumber s = '+' :: cleanPhone s := by
          unfold normalizePhoneNumber
          rw [h]
          simp [h1]
        rw [hout, List.take_succ_cons, startsWith234_take _ h]

/-- Witness for C10_thm: the test vector '08012345678' cleans to a string
starting with '0' and normalizes to a '+234'-prefixed number, and the
normalizer is idempotent on it. -/
theorem C10_witness :
    (startsWith0 (cleanPhone ['0','8','0','1','2','3','4','5','6','7','8']) = true
      ∨ startsWith234 (cleanPhone ['0','8','0','1','2','3','4','5','6','7','8']) = true)
    ∧ (normalizePhoneNumber ['0','8','0','1','2','3','4','5','6','7','8']).take 4
        = ['+', '2', '3', '4']
    ∧ normalizePhoneNumber (normalizePhoneNumber ['0','8','0','1','2','3','4','5','6','7','8'])
        = normalizePhoneNumber ['0','8','0','1','2','3','4','5','6','7','8'] :=
  ⟨Or.inl (by decide),
   C10_thm.2 ['0','8','0','1','2','3','4','5','6','7','8'] (Or.inl (by decide)),
   C10_thm.1 ['0','8','0','1','2','3','4','5','6','7','8']⟩

/-! ## Form wizard state (frontend/src/types/application.ts and
frontend/src/hooks/useFormWizard.ts) -/

/-- WizardStep record of frontend/src/types/application.ts. -/
structure WizardStep where
  id : Nat
  title : String
  description : String
deriving DecidableEq

/-- WIZARD_STEPS (frontend/src/types/application.ts, lines 206-214). -/
def WIZARD_STEPS : List WizardStep :=
  [⟨0, "Bond Details", "Select tenor and enter bond value"⟩,
   ⟨1, "Applicant Type", "Choose applicant category"⟩,
   ⟨2, "Applicant Info", "Enter personal/company details"⟩,
   ⟨3, "Bank Details", "Enter bank account information"⟩,
   ⟨4, "Classification", "Select residency and investor category"⟩,
   ⟨5, "Distribution", "Enter agent details (optional)"⟩,
   ⟨6, "Review & Submit", "Review and submit application"⟩]

/-- totalSteps = WIZARD_STEPS.length in useFormWizard. -/
def totalSteps : Nat := WIZARD_STEPS.length

/-- goToStep of useFormWizard: sets the step only when
`step >= 0 && step < totalSteps`. The argument is an integer so that negative
inputs, which the hook receives and ignores, are representable. -/
def goToStep (step : ℤ) (currentStep : Nat) : Nat :=
  if 0 ≤ step ∧ step < (totalSteps : ℤ) then step.toNat else currentStep

/-- nextStep of useFormWizard: advances only when
`currentStep < totalSteps - 1`, and only if the optional validateStep callback
returns true; the callback's outcome is the Bool argument (true also models
the absent-callback case). -/
def nextStep (validationOk : Bool) (currentStep : Nat) : Nat :=
  if currentStep < totalSteps - 1 then
    if validationOk then currentStep + 1 else currentStep
  else currentStep

/-- prevStep of useFormWizard: decrements only when `currentStep > 0`. -/
def prevStep (currentStep : Nat) : Nat :=
  if 0 < currentStep then currentStep - 1 else currentStep

/-- A wizard navigation event: a Next click (with its validation outcome), a
Previous click, or a goToStep call. -/
inductive WizardOp
  | next (validationOk : Bool)
  | prev
  | goto (step : ℤ)

/-- Applies one navigation event to the current step. -/
def applyOp : WizardOp → Nat → Nat
  | .next ok, s => nextStep ok s
  | .prev, s => prevStep s
  | .goto step, s => goToStep step s

/-- Runs a sequence of navigation events from the initial state
`useState(0)`. -/
def runOps (ops : List WizardOp) : Nat := ops.foldl (fun s op => applyOp op s) 0

theorem applyOp_le (op : WizardOp) (s : Nat) (h : s ≤ 6) : applyOp op s ≤ 6 := by
  cases op with
  | next ok =>
    simp only [applyOp, nextStep, totalSteps, WIZARD_STEPS, List.length_cons,
      List.length_nil]
    split_ifs <;> omega
  | prev =>
    simp only [applyOp, prevStep]
    split_ifs <;> omega
  | goto step =>
    simp only [applyOp, goToStep, totalSteps, WIZARD_STEPS]
    split_ifs with hg
    · simp only [List.length_cons, List.length_nil] at hg
      omega
    · exact h

theorem runOps_aux (ops : List WizardOp) (s : Nat) (h : s ≤ 6) :
    ops.foldl (fun s op => applyOp op s) s ≤ 6 := by
  induction ops generalizing s with
  | nil => exact h
  | cons op rest ih => exact ih _ (applyOp_le op s h)

/-- C9: the wizard has exactly 7 steps; starting from step 0, every sequence
of nextStep, prevStep and goToStep events keeps the current step within 0..6;
prevStep at 0 and nextStep at the last step are no-ops, and goToStep with an
out-of-range argument leaves the step unchanged. -/
theorem C9_thm :
    totalSteps = 7
    ∧ (∀ ops : List WizardOp, runOps ops ≤ 6)
    ∧ prevStep 0 = 0
    ∧ (∀ ok, nextStep ok 6 = 6)
    ∧ (∀ (step : ℤ) (s : Nat), step < 0 ∨ 6 < step → goToStep step s = s) := by
  refine ⟨rfl, fun ops => runOps_aux ops 0 (by omega), rfl, fun ok => rfl, ?_⟩
  intro step s h
  simp only [goToStep, totalSteps, WIZARD_STEPS, List.length_cons, List.length_nil]
  rw [if_neg]
  omega

/-- Witness for C9_thm: a concrete event sequence that tries to escape the
range in both directions ends at a legal step, and goToStep 99 is ignored. -/
theorem C9_witness :
    runOps [.next true, .next true, .prev, .prev, .prev, .goto 99, .goto (-1),
            .next true, .next true, .next true, .next true, .next true,
            .next true, .next true, .next true] ≤ 6
    ∧ ((-1 : ℤ) < 0 ∨ 6 < (-1 : ℤ)) ∧ goToStep (-1) 3 = 3
    ∧ ((99 : ℤ) < 0 ∨ 6 < (99 : ℤ)) ∧ goToStep 99 5 = 5 :=
  ⟨C9_thm.2.1 _, Or.inl (by decide), C9_thm.2.2.2.2 (-1) 3 (Or.inl (by decide)),
   Or.inr (by decide), C9_thm.2.2.2.2 99 5 (Or.inr (by decide))⟩

/-! ## Application data model (frontend/src/types/application.ts) -/

/-- ApplicantType discriminator. -/
inductive ApplicantType
  | Individual
  | Joint
  | Corporate
deriving DecidableEq

/-- Tenor enum: '2-Year' | '3-Year'. -/
inductive Tenor
  | twoYear
  | threeYear
deriving DecidableEq

/-- Names of the ApplicationFormData fields, used to state which fields a
schema validates and which fields a component renders. -/
inductive Field
  | tenor | month_of_offer | bond_value | amount_in_words
  | applicant_type
  | title | full_name | date_of_birth | phone_number | email | occupation
  | passport_no | next_of_kin | mothers_maiden_name | address | cscs_number
  | chn_number
  | joint_title | joint_full_name | joint_date_of_birth | joint_phone_number
  | joint_email | joint_occupation | joint_passport_no | joint_next_of_kin
  | joint_address
  | company_name | rc_number | business_type | contact_person
  | corp_phone_number | corp_email | corp_passport_no
  | bank_name | bank_branch | account_number | sort_code | bvn
  | joint_bank_name | joint_bank_branch | joint_account_number
  | joint_sort_code | joint_bvn
  | is_resident | investor_category
  | agent_name | stockbroker_code
  | needs_witness | witness_name | witness_address | witness_acknowledged
deriving DecidableEq

/-- ApplicationFormData (frontend/src/types/application.ts). Optional fields
are Option; bond_value is an exact rational. -/
structure ApplicationRecord where
  tenor : Tenor
  month_of_offer : String
  bond_value : ℚ
  amount_in_words : String
  applicant_type : ApplicantType
  title : Option String
  full_name : Option String
  date_of_birth : Option String
  phone_number : Option String
  email : Option String
  occupation : Option String
  passport_no : Option String
  next_of_kin : Option String
  mothers_maiden_name : Option String
  address : Option String
  cscs_number : Option String
  chn_number : Option String
  joint_title : Option String
  joint_full_name : Option String
  joint_date_of_birth : Option String
  joint_phone_number : Option String
  joint_email : Option String
  joint_occupation : Option String
  joint_passport_no : Option String
  joint_next_of_kin : Option String
  joint_address : Option String
  company_name : Option String
  rc_number : Option String
  business_type : Option String
  contact_person : Option String
  corp_phone_number : Option String
  corp_email : Option String
  corp_passport_no : Option String
  bank_name : String
  bank_branch : Option String
  account_number : String
  sort_code : Option String
  bvn : Option String
  joint_bank_name : Option String
  joint_bank_branch : Option String
  joint_account_number : Option String
  joint_sort_code : Option String
  joint_bvn : Option String
  is_resident : Bool
  investor_category : Option (List String)
  agent_name : Option String
  stockbroker_code : Option String
  needs_witness : Bool
  witness_name : Option String
  witness_address : Option String
  witness_acknowledged : Bool
deriving DecidableEq

/-! ## Validation schemas (frontend/src/lib/validation.ts) -/

/-- INVESTOR_CATEGORIES (frontend/src/lib/constants.ts): the ten declared
investor-category options. -/
def INVESTOR_CATEGORIES : List String :=
  ["Individual", "Insurance", "Corporate", "Others", "Foreign Investor",
   "Non-Bank Financial Institution", "Co-operative Society",
   "Government Agencies", "Staff Scheme", "Micro Finance Bank"]

/-- z.string().min(n): the string has at least n characters. -/
def strMin (n : Nat) (s : String) : Bool := decide (n ≤ s.length)

/-- A required z.string().min(n) applied to a possibly-undefined value:
undefined fails. -/
def optStrMin (n : Nat) (o : Option String) : Bool :=
  match o with
  | some s => strMin n s
  | none => false

/-- accountNumberRegex ^\d{10}$. -/
def isTenDigits (s : String) : Bool :=
  decide (s.length = 10) && s.toList.all Char.isDigit

/-- The [789]\d{9}$ part of phoneRegex, applied after the prefix. -/
def phoneLocalMatch : List Char → Bool
  | c :: ds => (c == '7' || c == '8' || c == '9')
      && decide (ds.length = 9) && ds.all Char.isDigit
  | [] => false

/-- phoneRegex ^(\+234|234|0)[789]\d{9}$. -/
def phoneRegexMatch (s : String) : Bool :=
  match s.toList with
  | '+' :: '2' :: '3' :: '4' :: rest => phoneLocalMatch rest
  | '2' :: '3' :: '4' :: rest => phoneLocalMatch rest
  | '0' :: rest => phoneLocalMatch rest
  | _ => false

/-- The character class [^\s@] of emailRegex (JS \s modeled by
Char.isWhitespace). -/
def notSpaceOrAt (c : Char) : Bool := !(c == '@' || c.isWhitespace)

/-- The domain part [^\s@]+\.[^\s@]+ requires a dot that is neither the first
nor the last character. -/
def hasInnerDot (l : List Char) : Bool :=
  l.enum.any fun p => p.2 == '.' && !decide (p.1 = 0) && !decide (p.1 = l.length - 1)

/-- emailRegex ^[^\s@]+@[^\s@]+\.[^\s@]+$: exactly one '@' (the class forbids
it elsewhere) separating a nonempty local part from a domain with an interior
dot. -/
def emailRegexMatch (s : String) : Bool :=
  match s.toList.splitOn '@' with
  | [locPart, domPart] =>
      !locPart.isEmpty && locPart.all notSpaceOrAt
        && !domPart.isEmpty && domPart.all notSpaceOrAt && hasInnerDot domPart
  | _ => false

/-- A required phone field of the per-step schemas:
z.string().min(1).regex(phoneRegex). -/
def optPhoneReq (o : Option String) : Bool :=
  match o with
  | some s => strMin 1 s && phoneRegexMatch s
  | none => false

/-- A required email field of the per-step schemas:
z.string().min(1).regex(emailRegex). -/
def optEmailReq (o : Option String) : Bool :=
  match o with
  | some s => strMin 1 s && emailRegexMatch s
  | none => false

/-- Per-field validity under the complete applicationFormSchema
(frontend/src/lib/validation.ts, lines 336-408), the schema the form resolver
uses. Only month_of_offer, bond_value, amount_in_words, bank_name and
account_number carry constraints there; every applicant-identity field, the
joint bank fields, bvn and investor_category are declared .optional() without
constraints, and the enum/boolean fields are enforced by typing. -/
def schemaFieldValid (r : ApplicationRecord) : Field → Bool
  | .month_of_offer => strMin 1 r.month_of_offer
  | .bond_value => decide (5000 ≤ r.bond_value ∧ r.bond_value ≤ 50000000)
  | .amount_in_words => strMin 1 r.amount_in_words
  | .bank_name => strMin 1 r.bank_name
  | .account_number => isTenDigits r.account_number
  | _ => true

/-- All fields of applicationFormSchema, in declaration order. -/
def allFormFields : List Field :=
  [.tenor, .month_of_offer, .bond_value, .amount_in_words, .applicant_type,
   .title, .full_name, .date_of_birth, .phone_number, .email, .occupation,
   .passport_no, .next_of_kin, .mothers_maiden_name, .address, .cscs_number,
   .chn_number,
   .joint_title, .joint_full_name, .joint_date_of_birth, .joint_phone_number,
   .joint_email, .joint_occupation, .joint_passport_no, .joint_next_of_kin,
   .joint_address,
   .company_name, .rc_number, .business_type, .contact_person,
   .corp_phone_number, .corp_email, .corp_passport_no,
   .bank_name, .bank_branch, .account_number, .sort_code, .bvn,
   .joint_bank_name, .joint_bank_branch, .joint_account_number,
   .joint_sort_code, .joint_bvn,
   .is_resident, .investor_category, .agent_name, .stockbroker_code,
   .needs_witness, .witness_name, .witness_address, .witness_acknowledged]

/-- Acceptance by the complete applicationFormSchema: every field parses. -/
def applicationFormSchemaAccept (r : ApplicationRecord) : Bool :=
  allFormFields.all (schemaFieldValid r)

/-- corporateFieldsSchema (frontend/src/lib/validation.ts, lines 267-281):
the step schema that does require the corporate fields. corp_passport_no is
optional. -/
def corporateFieldsSchemaAccept (r : ApplicationRecord) : Bool :=
  optStrMin 2 r.company_name && optStrMin 1 r.rc_number
    && optStrMin 1 r.business_type && optStrMin 2 r.contact_person
    && optPhoneReq r.corp_phone_number && optEmailReq r.corp_email

/-- individualFieldsSchema (frontend/src/lib/validation.ts, lines 226-245):
the step schema that does require the personal fields. occupation,
passport_no, mothers_maiden_name, cscs_number and chn_number are optional. -/
def individualFieldsSchemaAccept (r : ApplicationRecord) : Bool :=
  optStrMin 1 r.title && optStrMin 2 r.full_name && optStrMin 1 r.date_of_birth
    && optPhoneReq r.phone_number && optEmailReq r.email
    && optStrMin 1 r.next_of_kin && optStrMin 5 r.address

/-- classificationSchema (frontend/src/lib/validation.ts, lines 320-323):
is_resident is a boolean (enforced by typing) and investor_category is an
array with at least one element. No upper bound is declared. -/
def classificationSchemaAccept (_is_resident : Bool) (investor_category : List String) :
    Bool :=
  decide (1 ≤ investor_category.length)

/-! ## Wizard step validation (FormWizard.tsx: validateStep) -/

/-- The fieldsToValidate list of validateStep (FormWizard.tsx), per step and
applicant type; steps 5 and up validate nothing. -/
def validateStepFields (step : Nat) (t : ApplicantType) : List Field :=
  match step with
  | 0 => [.tenor, .month_of_offer, .bond_value]
  | 1 => [.applicant_type]
  | 2 =>
    match t with
    | .Individual =>
        [.title, .full_name, .date_of_birth, .phone_number, .email,
         .next_of_kin, .address]
    | .Joint =>
        [.title, .full_name, .date_of_birth, .phone_number, .email,
         .next_of_kin, .address,
         .joint_title, .joint_full_name, .joint_date_of_birth,
         .joint_phone_number, .joint_email, .joint_next_of_kin, .joint_address]
    | .Corporate =>
        [.company_name, .rc_number, .business_type, .contact_person,
         .corp_phone_number, .corp_email]
  | 3 => [.bank_name, .account_number]
      ++ (if t = .Joint then [.joint_bank_name, .joint_account_number] else [])
  | 4 => [.is_resident, .investor_category]
  | _ => []

/-- validateStep (FormWizard.tsx): form.trigger(fieldsToValidate) validates
the listed fields against the resolver schema, which is the complete
applicationFormSchema; an empty list returns true. -/
def validateStep (step : Nat) (r : ApplicationRecord) : Bool :=
  (validateStepFields step r.applicant_type).all (schemaFieldValid r)

/-! ## Step components: which fields/sections are emitted -/

/-- The form fields registered by one IndividualForm block
(ApplicantInfoStep.tsx): unprefixed for the primary applicant, joint-prefixed
for the secondary; mothers_maiden_name, cscs_number and chn_number are
rendered only for the primary (the `!prefix` guards). -/
def individualFormFields (jointPrefixed : Bool) : List Field :=
  if jointPrefixed then
    [.joint_title, .joint_full_name, .joint_date_of_birth, .joint_phone_number,
     .joint_email, .joint_occupation, .joint_passport_no, .joint_next_of_kin,
     .joint_address]
  else
    [.title, .full_name, .date_of_birth, .phone_number, .email, .occupation,
     .passport_no, .next_of_kin, .mothers_maiden_name, .cscs_number,
     .chn_number, .address]

/-- The form fields registered by CorporateForm (ApplicantInfoStep.tsx). -/
def corporateFormFields : List Field :=
  [.company_name, .rc_number, .business_type, .contact_person,
   .corp_phone_number, .corp_email, .corp_passport_no]

/-- The applicant-identity fields ApplicantInfoStep renders for each
applicant type: CorporateForm for Corporate, one IndividualForm for
Individual, and primary plus joint IndividualForm blocks for Joint. -/
def renderedIdentityFields : ApplicantType → List Field
  | .Corporate => corporateFormFields
  | .Individual => individualFormFields false
  | .Joint => individualFormFields false ++ individualFormFields true

/-- The form fields DistributionStep renders: the agent inputs and the
needs_witness checkbox always, and the three witness inputs only inside the
`needsWitness && (...)` block. -/
def distributionRenderedFields (needsWitness : Bool) : List Field :=
  [.agent_name, .stockbroker_code, .needs_witness]
    ++ (if needsWitness then
          [.witness_name, .witness_address, .witness_acknowledged]
        else [])

/-- JS truthiness of a possibly-undefined string: undefined and the empty
string are falsy. -/
def truthy : Option String → Bool
  | none => false
  | some s => !s.isEmpty

/-- The titles of the Section blocks ReviewStep emits for a record, in
order. Joint identity, joint bank, distribution-agent and witness sections
are conditional exactly as in ReviewStep.tsx; the witness section is guarded
by `data.needs_witness &&`. -/
def reviewSections (r : ApplicationRecord) : List String :=
  ["Bond Details",
   if r.applicant_type = .Corporate then "Company Information"
   else "Applicant Information"]
  ++ (if r.applicant_type = .Joint then ["Joint Applicant Information"] else [])
  ++ [if r.applicant_type = .Joint then "Primary Applicant\x27s Bank Details"
      else "Bank Details"]
  ++ (if r.applicant_type = .Joint ∧ truthy r.joint_bank_name = true then
        ["Joint Applicant\x27s Bank Details"]
      else [])
  ++ ["Classification"]
  ++ (if truthy r.agent_name = true ∨ truthy r.stockbroker_code = true then
        ["Distribution Agent"]
      else [])
  ++ (if r.needs_witness then ["Witness"] else [])
  ++ ["Declaration"]

/-! ## RadioGroup (frontend/src/components/ui/RadioGroup.tsx) -/

/-- RadioOption of RadioGroup.tsx. -/
structure RadioOption where
  value : String
  label : String
  description : Option String := none
deriving DecidableEq

/-- Whether RadioGroup draws one option as checked:
`checked={value === option.value}`; value is undefined when nothing is
selected. -/
def radioChecked (value : Option String) (o : RadioOption) : Bool :=
  value == some o.value

/-- The checked flags of the rendered option boxes, in declared order. -/
def radioCheckedFlags (options : List RadioOption) (value : Option String) :
    List Bool :=
  options.map (radioChecked value)

/-- How many option boxes RadioGroup draws as checked. -/
def radioCheckedCount (options : List RadioOption) (value : Option String) : Nat :=
  (radioCheckedFlags options value).count true

/-! ## C2: per-type field consistency is not enforced by the resolver -/

/-- A Corporate application record with every base (non-variant) field valid
but with no corporate identity data at all: no company name, RC number,
business type or contact person. -/
def badCorporate : ApplicationRecord where
  tenor := .twoYear
  month_of_offer := "January"
  bond_value := 5000
  amount_in_words := "Five Thousand Naira"
  applicant_type := .Corporate
  title := none
  full_name := none
  date_of_birth := none
  phone_number := none
  email := none
  occupation := none
  passport_no := none
  next_of_kin := none
  mothers_maiden_name := none
  address := none
  cscs_number := none
  chn_number := none
  joint_title := none
  joint_full_name := none
  joint_date_of_birth := none
  joint_phone_number := none
  joint_email := none
  joint_occupation := none
  joint_passport_no := none
  joint_next_of_kin := none
  joint_address := none
  company_name := none
  rc_number := none
  business_type := none
  contact_person := none
  corp_phone_number := none
  corp_email := none
  corp_passport_no := none
  bank_name := "Access Bank"
  bank_branch := none
  account_number := "0123456789"
  sort_code := none
  bvn := none
  joint_bank_name := none
  joint_bank_branch := none
  joint_account_number := none
  joint_sort_code := none
  joint_bvn := none
  is_resident := true
  investor_category := some ["Corporate"]
  agent_name := none
  stockbroker_code := none
  needs_witness := false
  witness_name := none
  witness_address := none
  witness_acknowledged := false

/-- C2 fails on the code: a Corporate record carrying no corporate identity
fields passes every wizard validation step and the complete
applicationFormSchema, because the resolver schema declares all per-type
fields .optional() and validateStep triggers the listed fields against that
schema. The per-step corporateFieldsSchema, which the comment at
validation.ts line 412 re-exports 'for step validation' and which the test
suite exercises, does reject the same record - the integration never invokes
it, so the inconsistent record is accepted, contradicting the claimed
fail-fast behaviour. -/
theorem C2_thm :
    badCorporate.applicant_type = ApplicantType.Corporate
    ∧ badCorporate.company_name = none
    ∧ badCorporate.rc_number = none
    ∧ badCorporate.full_name = none
    ∧ (∀ step : Nat, validateStep step badCorporate = true)
    ∧ applicationFormSchemaAccept badCorporate = true
    ∧ corporateFieldsSchemaAccept badCorporate = false := by
  refine ⟨rfl, rfl, rfl, rfl, ?_, by decide, by decide⟩
  intro step
  match step with
  | 0 => decide
  | 1 => decide
  | 2 => decide
  | 3 => decide
  | 4 => decide
  | n + 5 => rfl

/-! ## C4: investor-category size constraints -/

/-- A record whose investor-category selection is empty. -/
def emptyCategoryRecord : ApplicationRecord :=
  { badCorporate with
      applicant_type := .Individual
      investor_category := some [] }

/-- C4, as stated, is false: the classification step schema only requires at
least one category (min 1) and declares no upper bound, so a selection of
eleven category strings - all drawn from the ten declared options - is
accepted; moreover the wizard validates investor_category against the
complete form schema, where it is .optional(), so even an empty selection
passes validateStep 4. -/
theorem C4_counterexample :
    classificationSchemaAccept true (List.replicate 11 "Individual") = true
    ∧ (List.replicate 11 "Individual").length = 11
    ∧ (List.replicate 11 "Individual").all
        (fun c => decide (c ∈ INVESTOR_CATEGORIES)) = true
    ∧ validateStep 4 emptyCategoryRecord = true
    ∧ emptyCategoryRecord.investor_category = some [] := by
  exact ⟨by decide, by decide, by decide, by decide, rfl⟩

/-- C4 (amended): the classification step schema accepts a record iff the
investor-category selection is nonempty; it enforces no upper bound (and the
complete form schema, used by the wizard, places no constraint at all on
investor_category). The bound of ten holds only in the sense that there are
exactly ten declared options, so any duplicate-free selection of declared
options has at most ten entries. -/
theorem C4_thm :
    (∀ (res : Bool) (cats : List String),
        classificationSchemaAccept res cats = true ↔ cats ≠ [])
    ∧ INVESTOR_CATEGORIES.length = 10
    ∧ (∀ cats : List String, cats.Nodup →
        (∀ c ∈ cats, c ∈ INVESTOR_CATEGORIES) → cats.length ≤ 10)
    ∧ (∀ r : ApplicationRecord, schemaFieldValid r .investor_category = true) := by
  refine ⟨?_, rfl, ?_, fun r => rfl⟩
  · intro res cats
    cases cats <;> simp [classificationSchemaAccept]
  · intro cats hnd hsub
    have h1 : cats.toFinset.card = cats.length := List.toFinset_card_of_nodup hnd
    have h2 : cats.toFinset ⊆ INVESTOR_CATEGORIES.toFinset := fun c hc =>
      List.mem_toFinset.mpr (hsub c (List.mem_toFinset.mp hc))
    have h3 := Finset.card_le_card h2
    have h4 := INVESTOR_CATEGORIES.toFinset_card_le
    have h5 : INVESTOR_CATEGORIES.length = 10 := rfl
    omega

/-- Witness for C4_thm: a one-element selection is accepted, and a concrete
duplicate-free selection of declared options has at most ten entries. -/
theorem C4_witness :
    classificationSchemaAccept true ["Individual"] = true
    ∧ (["Individual", "Insurance"] : List String).length ≤ 10 :=
  ⟨(C4_thm.1 true ["Individual"]).mpr (by decide),
   C4_thm.2.2.1 ["Individual", "Insurance"] (by decide) (by decide)⟩

/-! ## C3: witness block present iff the witness flag is true -/

/-- C3: DistributionStep renders the witness inputs (name, address,
acknowledgement) iff needs_witness is true, and with the flag false the
emitted field list contains no witness field at all; likewise ReviewStep
emits a 'Witness' section in the assembled review document iff
needs_witness is true. -/
theorem C3_thm :
    (∀ b : Bool,
        (Field.witness_name ∈ distributionRenderedFields b
          ∧ Field.witness_address ∈ distributionRenderedFields b
          ∧ Field.witness_acknowledged ∈ distributionRenderedFields b) ↔ b = true)
    ∧ distributionRenderedFields false
        = [.agent_name, .stockbroker_code, .needs_witness]
    ∧ (∀ r : ApplicationRecord,
        "Witness" ∈ reviewSections r ↔ r.needs_witness = true) := by
  refine ⟨?_, rfl, ?_⟩
  · intro b
    cases b <;> decide
  · intro r
    unfold reviewSections
    split_ifs <;> simp_all

/-! ## C5: variant branching of the applicant-identity section -/

/-- The personal fields named by the variant-branching property. -/
def personalIdentityFields : List Field :=
  [.full_name, .date_of_birth, .next_of_kin]

/-- The company-registration fields named by the variant-branching
property. -/
def companyRegFields : List Field :=
  [.company_name, .rc_number, .business_type, .contact_person]

/-- C5: a Corporate application neither renders nor validates any personal
identity field (full name, date of birth, next of kin), and an Individual or
Joint application neither renders nor validates any company-registration
field (company name, RC number, business type, contact person). -/
theorem C5_thm :
    (∀ f ∈ personalIdentityFields,
        f ∉ renderedIdentityFields .Corporate ∧ f ∉ validateStepFields 2 .Corporate)
    ∧ (∀ t : ApplicantType, t = .Individual ∨ t = .Joint →
        ∀ f ∈ companyRegFields,
          f ∉ renderedIdentityFields t ∧ f ∉ validateStepFields 2 t) := by
  constructor
  · decide
  · intro t ht
    rcases ht with rfl | rfl <;> decide

/-- Witness for C5_thm: full_name is excluded from the Corporate identity
section and company_name from the Individual one. -/
theorem C5_witness :
    (Field.full_name ∉ renderedIdentityFields .Corporate
      ∧ Field.full_name ∉ validateStepFields 2 .Corporate)
    ∧ (Field.company_name ∉ renderedIdentityFields .Individual
      ∧ Field.company_name ∉ validateStepFields 2 .Individual) :=
  ⟨C5_thm.1 Field.full_name (by decide),
   C5_thm.2 ApplicantType.Individual (Or.inl rfl) Field.company_name (by decide)⟩

/-! ## C6: single-select rendering in RadioGroup -/

/-- C6, as stated, is false: RadioGroup draws each option checked iff its
value equals the selected value, so a group given two options with the same
value 'a' and selected value 'a' draws two checked boxes - not exactly one,
and the first option in declared order does not win. -/
theorem C6_counterexample :
    radioCheckedCount
      [⟨"a", "Option A", none⟩, ⟨"a", "Option B", none⟩] (some "a") = 2 := by
  decide

/-- If an option whose value equals the selection is present, at least one
box is drawn checked. -/
theorem radioCheckedCount_pos (options : List RadioOption) (o : RadioOption)
    (value : Option String) (ho : o ∈ options) (hv : value = some o.value) :
    1 ≤ radioCheckedCount options value := by
  have hch : radioChecked value o = true := by simp [radioChecked, hv]
  have hmem : true ∈ options.map (radioChecked value) :=
    List.mem_map.mpr ⟨o, ho, hch⟩
  simpa [radioCheckedCount, radioCheckedFlags] using
    List.count_pos_iff.mpr hmem

/-- With pairwise-distinct option values, at most one box is drawn
checked. -/
theorem radioCheckedCount_le_one (options : List RadioOption)
    (value : Option String) (hnd : (options.map RadioOption.value).Nodup) :
    radioCheckedCount options value ≤ 1 := by
  induction options with
  | nil => simp [radioCheckedCount, radioCheckedFlags]
  | cons a rest ih =>
    rw [List.map_cons, List.nodup_cons] at hnd
    obtain ⟨hna, hnr⟩ := hnd
    by_cases hch : radioChecked value a = true
    · have hv : value = some a.value := by
        simpa [radioChecked] using hch
      have hrest : radioCheckedCount rest value = 0 := by
        rw [radioCheckedCount, radioCheckedFlags, List.count_eq_zero]
        intro htrue
        obtain ⟨o, ho, hco⟩ := List.mem_map.mp htrue
        have : a.value = o.value := by
          have := (by simpa [radioChecked, hv] using hco : a.value = o.value)
          exact this
        exact hna (this ▸ List.mem_map.mpr ⟨o, ho, rfl⟩)
      have : radioCheckedCount (a :: rest) value = radioCheckedCount rest value + 1 := by
        simp [radioCheckedCount, radioCheckedFlags, List.count_cons, hch]
      omega
    · have : radioCheckedCount (a :: rest) value = radioCheckedCount rest value := by
        simp [radioCheckedCount, radioCheckedFlags, List.count_cons, hch]
      rw [this]
      exact ih hnr

/-- C6 (amended): an option box is drawn checked iff its value equals the
group's single selected value. Since every call site declares pairwise
distinct option values, at most one box is drawn checked, and it is the one
whose value is selected (exactly one when the selection names a declared
option). When duplicate option values match the selection, every matching box
is drawn checked - the first in declared order does not win. -/
theorem C6_thm :
    (∀ (value : Option String) (o : RadioOption),
        radioChecked value o = true ↔ value = some o.value)
    ∧ (∀ (options : List RadioOption) (value : Option String),
        (options.map RadioOption.value).Nodup → radioCheckedCount options value ≤ 1)
    ∧ (∀ (options : List RadioOption) (o : RadioOption) (value : Option String),
        o ∈ options → value = some o.value → 1 ≤ radioCheckedCount options value) :=
  ⟨fun value o => by simp [radioChecked],
   fun options value hnd => radioCheckedCount_le_one options value hnd,
   fun options o value ho hv => radioCheckedCount_pos options o value ho hv⟩

/-- Witness for C6_thm at the residency call site of ClassificationStep: the
two options have distinct values, selecting 'true' checks exactly one box. -/
theorem C6_witness :
    radioCheckedCount
      [⟨"true", "Resident", some "Currently residing in Nigeria"⟩,
       ⟨"false", "Non-Resident", some "Living outside Nigeria"⟩]
      (some "true") ≤ 1
    ∧ 1 ≤ radioCheckedCount
        [⟨"true", "Resident", some "Currently residing in Nigeria"⟩,
         ⟨"false", "Non-Resident", some "Living outside Nigeria"⟩]
        (some "true") :=
  ⟨C6_thm.2.1 _ (some "true") (by decide),
   C6_thm.2.2 _ ⟨"true", "Resident", some "Currently residing in Nigeria"⟩
     (some "true") (by decide) rfl⟩

/-! ## C7: FixedWidthField (modelled from the design document) -/

/-- Modelled from the spec: the FixedWidthField primitive of the backend PDF
element library (backend/pdf/elements.py is not among the available sources).
Per the design document it renders exactly cellCount bordered boxes, one
character per box left to right, dropping characters beyond cellCount and
leaving trailing boxes empty when the value is shorter. A box is Option Char:
some c for a filled box, none for an empty one. -/
def fixedWidthFieldCells (value : List Char) (cellCount : Nat) : List (Option Char) :=
  (value.take cellCount).map some ++ List.replicate (cellCount - value.length) none

/-- C7: a FixedWidthField with cell count N renders exactly N boxes; box i
(for i < N) holds character i of the value when the value is that long and is
empty otherwise; and characters beyond N are dropped - the rendering equals
that of the value truncated to N, never reflowed. -/
theorem C7_thm (value : List Char) (cellCount : Nat) :
    (fixedWidthFieldCells value cellCount).length = cellCount
    ∧ (∀ i, i < cellCount →
        (fixedWidthFieldCells value cellCount)[i]? = some value[i]?)
    ∧ fixedWidthFieldCells value cellCount
        = fixedWidthFieldCells (value.take cellCount) cellCount := by
  refine ⟨?_, ?_, ?_⟩
  · simp only [fixedWidthFieldCells, List.length_append, List.length_map,
      List.length_take, List.length_replicate]
    omega
  · intro i hi
    by_cases hlen : i < value.length
    · rw [fixedWidthFieldCells, List.getElem?_append_left
        (by simp [List.length_take]; omega)]
      rw [List.getElem?_map]
      rw [List.getElem?_take_of_lt hi]
      rw [List.getElem?_eq_getElem hlen]
      rfl
    · rw [fixedWidthFieldCells, List.getElem?_append_right
        (by simp [List.length_take]; omega)]
      rw [List.getElem?_eq_getElem (by simp [List.length_take, List.length_replicate]; omega)]
      rw [List.getElem?_eq_none (by omega)]
      simp
  · have hc : cellCount - value.length = cellCount - (value.take cellCount).length := by
      simp only [List.length_take]
      omega
    rw [fixedWidthFieldCells, fixedWidthFieldCells, List.take_take,
      min_self, hc]

/-- Witness for C7_thm: a 12-character value in a 10-cell field renders 10
boxes, and a 2-character value in a 5-cell field renders 5 boxes whose fifth
box is empty. -/
theorem C7_witness :
    (fixedWidthFieldCells
        ['0','1','2','3','4','5','6','7','8','9','X','Y'] 10).length = 10
    ∧ (fixedWidthFieldCells ['A','B'] 5).length = 5
    ∧ (fixedWidthFieldCells ['A','B'] 5)[4]? = some (['A','B'] : List Char)[4]? :=
  ⟨(C7_thm ['0','1','2','3','4','5','6','7','8','9','X','Y'] 10).1,
   (C7_thm ['A','B'] 5).1,
   (C7_thm ['A','B'] 5).2.1 4 (by decide)⟩

/-! ## C8: determinism of generate (modelled from the design document) -/

/-- A finished document: the rendered page content and the footer generation
timestamp, the only part of the output that does not derive from the input
record. -/
structure GeneratedDocument where
  body : String
  footerTimestamp : String
deriving DecidableEq

/-- Modelled from the spec: the section list the Template Assembler composes
(backend/pdf/templates.py is not among the available sources) - header, then
the builders in fixed order, with the witness section conditional on the
witness flag. -/
def assembledSections (r : ApplicationRecord) : List String :=
  ["Header", "Bond Terms", "Applicant Identity", "Bank Details",
   "Classification", "Distribution Agent"]
  ++ (if r.needs_witness then ["Witness"] else []) ++ ["Signatures"]

/-- Modelled from the spec: the Generator facade generate(applicationData)
(backend/pdf/generator.py is not among the available sources). It binds the
record into formatted values (currency words via formatMoneyInWords), drives
the assembler over the section list, and appends a footer carrying the
generation timestamp, which is passed explicitly here because it is the one
non-input dependence the design document names. -/
def generate (r : ApplicationRecord) (now : String) : GeneratedDocument :=
  { body := String.intercalate "\n" (assembledSections r) ++ "\n"
      ++ formatMoneyInWords r.bond_value
    footerTimestamp := now }

/-- C8: two invocations of generate on identical application data produce
identical bodies; the complete outputs coincide exactly when the footer
timestamps do, so the footer timestamp is the only possible difference. -/
theorem C8_thm (a : ApplicationRecord) (t1 t2 : String) :
    (generate a t1).body = (generate a t2).body
    ∧ (generate a t1 = generate a t2 ↔ t1 = t2) := by
  refine ⟨rfl, ?_, ?_⟩
  · intro h
    exact congrArg GeneratedDocument.footerTimestamp h
  · intro h
    rw [h]

end FgnBonds
